import Mathlib

/-!
Shallow embedding of src/planetary_stacker/src/planetary_stacker.cpp.

The C++ file implements the C API of planetary_stacker.h.  Both exported
entry points (ps_analyze_video, ps_process_video) are, per the comments in
the source, "ENHANCED SIMULATION"s: no video file is ever opened.

Modelling conventions:
* C float/double arithmetic is modelled over ℚ.  The simulated per-frame
  quality is 0.65 + 0.20*sin(frame_idx*0.03) + 0.10*sin(frame_idx*0.15) +
  noise(i), where noise(i) is drawn from a uniform_real_distribution over a
  random_device-seeded mt19937.  The embedding is parametric in a function
  sinq : ℚ → ℚ standing for sin, and noise : ℕ → ℚ standing for the i-th
  random draw; every theorem quantifying over these parameters in particular
  covers the values the C++ code actually computes.
* The C null pointers video_path / output_path / params are modelled with
  Option; a progress callback is modelled by a Bool (present or not)
  together with the list of progress percentages passed to it, in order.
* thread_local g_last_error is modelled as the error-string component of
  each call's outcome.
* std::sort with comparator (a.quality_score > b.quality_score) guarantees
  only that the output is a permutation of the input that is sorted with
  respect to the comparator; it is NOT stable, so the relative order of
  elements with equal quality_score is unspecified.  The executable model
  analyzeScores uses one permissible implementation (insertion sort); the
  set of ALL outputs permitted by the C++ standard is captured by
  qualitySortSpec / analyzeOutputs.
-/

/-- Mirrors struct PSFrameScore of planetary_stacker.h (int32_t fields as ℤ,
double quality_score as ℚ). -/
structure PSFrameScore where
  frame_index : ℤ
  quality_score : ℚ
  roi_x : ℤ
  roi_y : ℤ
  roi_width : ℤ
  roi_height : ℤ
  deriving DecidableEq, Repr

/-- Mirrors struct PSAnalysisResult: scores array, count (set from
scores.size()), total_frames. -/
structure PSAnalysisResult where
  scores : List PSFrameScore
  count : ℕ
  total_frames : ℕ
  deriving DecidableEq, Repr

/-- Mirrors struct PSProcessingParams of planetary_stacker.h. -/
structure PSProcessingParams where
  keep_percentage : ℚ
  min_frames : ℤ
  max_frames : ℤ
  enable_local_align : Bool
  tile_size : ℤ
  sigma_clip_threshold : ℚ
  sigma_iterations : ℤ
  wavelet_layer_0 : ℚ
  wavelet_layer_1 : ℚ
  wavelet_layer_2 : ℚ
  wavelet_layer_3 : ℚ
  wavelet_layer_4 : ℚ
  deriving DecidableEq, Repr

/-- Mirrors ps_get_default_params (planetary_stacker.cpp, lines 31-55). -/
def ps_get_default_params : PSProcessingParams where
  keep_percentage := 25/100
  min_frames := 50
  max_frames := 500
  enable_local_align := true
  tile_size := 32
  sigma_clip_threshold := 25/10
  sigma_iterations := 2
  wavelet_layer_0 := 8/10
  wavelet_layer_1 := 15/10
  wavelet_layer_2 := 2
  wavelet_layer_3 := 18/10
  wavelet_layer_4 := 12/10

/-- `const int total_frames = 1000;` (line 85). -/
def totalFrames : ℕ := 1000

/-- `const int analyzed_count = (total_frames + sample_step - 1) / sample_step;`
(line 86), for sample_step ≥ 1 (C integer division on nonnegative operands is
ℕ division). -/
def analyzedCount (sample_step : ℕ) : ℕ :=
  (totalFrames + sample_step - 1) / sample_step

/-- The same count expression over ℤ (the C operands are int32_t), with the
division-by-zero case made explicit: C `/` truncates toward zero (Int.tdiv)
and is undefined for divisor 0. -/
def analyzedCountChecked (total sample_step : ℤ) : Option ℤ :=
  if sample_step = 0 then none
  else some (Int.tdiv (total + sample_step - 1) sample_step)

/-- One loop iteration of the analysis loop (lines 97-128): the PSFrameScore
pushed for loop index i.  frame_idx = i * sample_step; quality is the clamped
simulated seeing value; the ROI fields follow lines 116-119. -/
def mkFrameScore (sinq : ℚ → ℚ) (noise : ℕ → ℚ) (sample_step i : ℕ) : PSFrameScore where
  frame_index := ((i * sample_step : ℕ) : ℤ)
  quality_score :=
    max (5/100) (min (99/100)
      (65/100 + (20/100) * sinq (((i * sample_step : ℕ) : ℚ) * (3/100))
        + (10/100) * sinq (((i * sample_step : ℕ) : ℚ) * (15/100))
        + noise i))
  roi_x := 220 + ((i % 10 : ℕ) : ℤ) - 5
  roi_y := 165 + ((i % 8 : ℕ) : ℤ) - 4
  roi_width := 640
  roi_height := 480

/-- The scores vector as built by the loop, before the std::sort call. -/
def analyzeScoresPre (sinq : ℚ → ℚ) (noise : ℕ → ℚ) (sample_step : ℕ) : List PSFrameScore :=
  (List.range (analyzedCount sample_step)).map (mkFrameScore sinq noise sample_step)

/-- The sort order requested at lines 135-138: consecutive elements a, b of
the sorted output satisfy ¬(b.quality_score > a.quality_score). -/
def qRel (a b : PSFrameScore) : Prop := b.quality_score ≤ a.quality_score

instance : DecidableRel qRel := fun a b =>
  inferInstanceAs (Decidable (b.quality_score ≤ a.quality_score))

/-- Executable model of the std::sort call at lines 135-138: one permissible
result (a comparator-sorted permutation of the input). -/
def analyzeScores (sinq : ℚ → ℚ) (noise : ℕ → ℚ) (sample_step : ℕ) : List PSFrameScore :=
  List.insertionSort qRel (analyzeScoresPre sinq noise sample_step)

/-- What the C++ standard guarantees about the std::sort call: the output is
a permutation of the input, sorted w.r.t. the comparator.  Tie order is NOT
specified (std::sort is unstable). -/
def qualitySortSpec (input output : List PSFrameScore) : Prop :=
  output.Perm input ∧ output.Pairwise qRel

/-- The set of scores arrays ps_analyze_video may return for the given
arguments: every comparator-sorted permutation of the analyzed scores. -/
def analyzeOutputs (sample_step : ℕ) (sinq : ℚ → ℚ) (noise : ℕ → ℚ) :
    Set (List PSFrameScore) :=
  {out | qualitySortSpec (analyzeScoresPre sinq noise sample_step) out}

/-- The spec sentence under test for C3: ties (equal quality_score) appear in
ascending frame_index order. -/
def tiesAscending (l : List PSFrameScore) : Prop :=
  l.Pairwise (fun a b => a.quality_score = b.quality_score → a.frame_index ≤ b.frame_index)

/-- Progress values passed to the callback inside the analysis loop
(lines 123-127): for every loop index i with i % 50 == 0, the value
(i * 90) / analyzed_count. -/
def analyzeLoopTrace (sample_step : ℕ) : List ℤ :=
  ((List.range (analyzedCount sample_step)).filter (fun i => i % 50 == 0)).map
    (fun i => ((i * 90 / analyzedCount sample_step : ℕ) : ℤ))

/-- Outcome of one ps_analyze_video call: the returned pointer (none models
nullptr), the progress values passed to the callback in order, and the final
g_last_error contents. -/
structure PSAnalyzeOutcome where
  result : Option PSAnalysisResult
  trace : List ℤ
  lastError : String
  deriving DecidableEq, Repr

/-- Model of ps_analyze_video (planetary_stacker.cpp, lines 61-161).
Null video_path: set g_last_error, return nullptr before any callback
(lines 68-71).  Otherwise: callback(0) (line 74), the analysis loop
callbacks (lines 124-127), callback(95) (line 131), sort (lines 135-138),
result with count = scores.size() and total_frames = 1000 (lines 141-145),
callback(100) (line 148), clear g_last_error (line 151). -/
def ps_analyze_video (video_path : Option String) (sample_step : ℕ)
    (hasCallback : Bool) (sinq : ℚ → ℚ) (noise : ℕ → ℚ) : PSAnalyzeOutcome :=
  match video_path with
  | none =>
      { result := none
        trace := []
        lastError := "Video path cannot be null" }
  | some _ =>
      let scores := analyzeScores sinq noise sample_step
      { result := some { scores := scores, count := scores.length, total_frames := totalFrames }
        trace := if hasCallback then 0 :: (analyzeLoopTrace sample_step ++ [95, 100]) else []
        lastError := "" }

/-- `static_cast<int>` of a nonnegative-or-negative real value truncates
toward zero (used at line 205 on 1000 * params->keep_percentage). -/
def truncToInt (x : ℚ) : ℤ := if 0 ≤ x then ⌊x⌋ else ⌈x⌉

/-- Lines 205-206:
`int frames_to_use = static_cast<int>(1000 * params->keep_percentage);`
`frames_to_use = std::max(params->min_frames, std::min(params->max_frames, frames_to_use));` -/
def framesToUse (p : PSProcessingParams) : ℤ :=
  max p.min_frames (min p.max_frames (truncToInt (1000 * p.keep_percentage)))

/-- Progress values passed to the callback by ps_process_video when the
callback is non-null (lines 196-264), in order: 0, 15, 20, 30, the global
alignment loop 30+2i (i=0..9), optionally 50 and the local alignment loop
50+2i (i=0..9), 70, the stacking loop 70+2i (i=0..4), 85, 95, 100. -/
def processTrace (enable_local_align : Bool) : List ℤ :=
  [0, 15, 20, 30] ++ (List.range 10).map (fun i => 30 + 2 * (i : ℤ))
    ++ (if enable_local_align then
          50 :: (List.range 10).map (fun i => 50 + 2 * (i : ℤ))
        else [])
    ++ 70 :: (List.range 5).map (fun i => 70 + 2 * (i : ℤ))
    ++ [85, 95, 100]

/-- Outcome of one ps_process_video call: the int32_t return value, the
progress values passed to the callback in order, the frame-selection stage's
computed frames_to_use (none when the null check failed before stage 2), and
the final g_last_error contents. -/
structure PSProcessOutcome where
  ret : ℤ
  trace : List ℤ
  frames_to_use : Option ℤ
  lastError : String
  deriving DecidableEq, Repr

/-- Model of ps_process_video (planetary_stacker.cpp, lines 174-276).
If any of video_path, output_path, params is null: set g_last_error to
"Invalid parameters" and return -1 before any callback (lines 182-185).
Otherwise the simulated pipeline runs unconditionally: the only computed
value is frames_to_use (lines 205-206), the callback trace is fixed up to
enable_local_align, g_last_error is cleared (line 266) and 0 is returned
(line 267). -/
def ps_process_video (video_path output_path : Option String)
    (params : Option PSProcessingParams) (hasCallback : Bool) : PSProcessOutcome :=
  match video_path, output_path, params with
  | some _, some _, some p =>
      { ret := 0
        trace := if hasCallback then processTrace p.enable_local_align else []
        frames_to_use := some (framesToUse p)
        lastError := "" }
  | _, _, _ =>
      { ret := -1
        trace := []
        frames_to_use := none
        lastError := "Invalid parameters" }

/-- All int32_t values ps_process_video can return. -/
def psProcessReturnValues : Set ℤ :=
  {r | ∃ video_path output_path params hasCallback,
    (ps_process_video video_path output_path params hasCallback).ret = r}

/-- Spec formula of claim C1, written from the spec's words (§4.2 and §8):
n = clamp(round(total_frames × keep_percentage), min_frames, max_frames),
further clamped to min(n, scores.length); clamp(v, lo, hi) = max lo (min hi v),
with total_frames = 1000. -/
def specSelectedCount (kp : ℚ) (min_frames max_frames scores_len : ℤ) : ℤ :=
  min (max min_frames (min max_frames (round (1000 * kp)))) scores_len

/-- Zero stand-in for the sin parameter (used for concrete instances). -/
def zeroSin : ℚ → ℚ := fun _ => 0

/-- Zero stand-in for the noise stream (used for concrete instances). -/
def zeroNoise : ℕ → ℚ := fun _ => 0

/-- Concrete parameters exhibiting trunc ≠ round in the frame-selection
formula: 1000 * (5/8192) = 625/1024 ≈ 0.61, truncation 0, rounding 1. -/
def cexParams : PSProcessingParams where
  keep_percentage := 5/8192
  min_frames := 0
  max_frames := 10
  enable_local_align := true
  tile_size := 32
  sigma_clip_threshold := 25/10
  sigma_iterations := 2
  wavelet_layer_0 := 1
  wavelet_layer_1 := 1
  wavelet_layer_2 := 1
  wavelet_layer_3 := 1
  wavelet_layer_4 := 1

instance : IsTotal PSFrameScore qRel :=
  ⟨fun a b => le_total b.quality_score a.quality_score⟩

instance : IsTrans PSFrameScore qRel :=
  ⟨fun _ _ _ h1 h2 => le_trans h2 h1⟩

/-- For sample_step ≥ 1 the analysis loop runs at least once. -/
lemma analyzedCount_pos {s : ℕ} (hs : 1 ≤ s) : 0 < analyzedCount s := by
  simp only [analyzedCount, totalFrames]
  exact Nat.div_pos (by omega) hs

/-- The C idiom (total + s - 1) / s computes ⌈total / s⌉ for s ≥ 1. -/
lemma ceil_helper {s : ℕ} (hs : 1 ≤ s) :
    ((analyzedCount s : ℤ)) = ⌈(totalFrames : ℚ) / (s : ℚ)⌉ := by
  have hs0 : 0 < s := hs
  have hsq : (0:ℚ) < (s:ℚ) := by exact_mod_cast hs0
  have key := Nat.div_add_mod (totalFrames + s - 1) s
  have hmod := Nat.mod_lt (totalFrames + s - 1) hs0
  have h1 : 1000 ≤ s * analyzedCount s := by
    simp only [analyzedCount, totalFrames] at key hmod ⊢
    omega
  have h2 : s * analyzedCount s ≤ 999 + s := by
    simp only [analyzedCount, totalFrames] at key hmod ⊢
    omega
  have h1q : (1000:ℚ) ≤ (s:ℚ) * (analyzedCount s : ℚ) := by exact_mod_cast h1
  have h2q : (s:ℚ) * (analyzedCount s : ℚ) ≤ 999 + (s:ℚ) := by exact_mod_cast h2
  symm
  rw [Int.ceil_eq_iff]
  constructor
  · rw [lt_div_iff₀ hsq]
    simp only [totalFrames]
    push_cast
    nlinarith [h2q]
  · rw [div_le_iff₀ hsq]
    simp only [totalFrames]
    push_cast
    nlinarith [h1q]

/-- With zero sin and zero noise, loop index 0 at sample_step 500 scores 0.65. -/
lemma q650 : (mkFrameScore zeroSin zeroNoise 500 0).quality_score = 65/100 := by
  simp only [mkFrameScore, zeroSin, zeroNoise]
  norm_num [min_def, max_def]

/-- With zero sin and zero noise, loop index 1 at sample_step 500 scores 0.65. -/
lemma q651 : (mkFrameScore zeroSin zeroNoise 500 1).quality_score = 65/100 := by
  simp only [mkFrameScore, zeroSin, zeroNoise]
  norm_num [min_def, max_def]

lemma idx0 : (mkFrameScore zeroSin zeroNoise 500 0).frame_index = 0 := by
  simp [mkFrameScore]

lemma idx1 : (mkFrameScore zeroSin zeroNoise 500 1).frame_index = 500 := by
  simp [mkFrameScore]

/-- Every in-loop progress value (i*90)/analyzed_count lies in [0, 90]. -/
lemma analyzeLoopTrace_bounds {s : ℕ} (hs : 1 ≤ s) :
    ∀ x ∈ analyzeLoopTrace s, 0 ≤ x ∧ x ≤ 90 := by
  intro x hx
  simp only [analyzeLoopTrace, List.mem_map, List.mem_filter, List.mem_range] at hx
  obtain ⟨i, ⟨hi, -⟩, rfl⟩ := hx
  refine ⟨Int.natCast_nonneg _, ?_⟩
  have hac := analyzedCount_pos hs
  have h90 : i * 90 / analyzedCount s ≤ 90 := by
    calc i * 90 / analyzedCount s ≤ analyzedCount s * 90 / analyzedCount s :=
          Nat.div_le_div_right (Nat.mul_le_mul_right _ hi.le)
      _ = 90 := Nat.mul_div_cancel_left 90 hac
  exact_mod_cast h90

/-- The in-loop progress values are emitted in non-decreasing order. -/
lemma analyzeLoopTrace_sorted (s : ℕ) : (analyzeLoopTrace s).Pairwise (· ≤ ·) := by
  simp only [analyzeLoopTrace]
  rw [List.pairwise_map]
  refine ((List.pairwise_lt_range _).filter _).imp ?_
  intro a b hab
  have : a * 90 / analyzedCount s ≤ b * 90 / analyzedCount s :=
    Nat.div_le_div_right (Nat.mul_le_mul_right _ hab.le)
  exact_mod_cast this

/-- The whole ps_analyze_video callback trace is non-decreasing and in [0,100]. -/
lemma analyzeTrace_ok {s : ℕ} (hs : 1 ≤ s) :
    (0 :: (analyzeLoopTrace s ++ [95, 100])).Pairwise ((· ≤ ·) : ℤ → ℤ → Prop) ∧
    ∀ x ∈ 0 :: (analyzeLoopTrace s ++ [95, 100]), (0:ℤ) ≤ x ∧ x ≤ 100 := by
  have hb := analyzeLoopTrace_bounds hs
  constructor
  · rw [List.pairwise_cons]
    constructor
    · intro x hx
      rcases List.mem_append.mp hx with h | h
      · exact (hb x h).1
      · simp only [List.mem_cons, List.not_mem_nil, or_false] at h
        rcases h with rfl | rfl <;> omega
    · rw [List.pairwise_append]
      refine ⟨analyzeLoopTrace_sorted s, by decide, ?_⟩
      intro a ha b hbmem
      have h90 := (hb a ha).2
      simp only [List.mem_cons, List.not_mem_nil, or_false] at hbmem
      rcases hbmem with rfl | rfl <;> omega
  · intro x hx
    rcases List.mem_cons.mp hx with rfl | hx
    · exact ⟨le_refl 0, by norm_num⟩
    rcases List.mem_append.mp hx with h | h
    · exact ⟨(hb x h).1, (hb x h).2.trans (by norm_num)⟩
    · simp only [List.mem_cons, List.not_mem_nil, or_false] at h
      rcases h with rfl | rfl <;> exact ⟨by norm_num, by norm_num⟩

/-- The whole ps_process_video callback trace is non-decreasing and in [0,100],
with and without the local alignment stage. -/
lemma processTrace_ok (b : Bool) :
    (processTrace b).Pairwise ((· ≤ ·) : ℤ → ℤ → Prop) ∧
    ∀ x ∈ processTrace b, (0:ℤ) ≤ x ∧ x ≤ 100 := by
  cases b <;> exact ⟨by decide, by decide⟩

/-- C1 counterexample: at keep_percentage = 5/8192 (an exactly representable
float), min_frames = 0, max_frames = 10, the code's frame-selection stage
(truncating static_cast) yields 0, while the spec formula
clamp(round(1000 × keep_percentage), min_frames, max_frames) further clamped
by a scores length (here 1000) yields 1. -/
theorem frames_to_use_ne_spec_formula_cex :
    (ps_process_video (some ("v")) (some ("o")) (some cexParams) false).frames_to_use
      = some (framesToUse cexParams) ∧
    framesToUse cexParams
      ≠ specSelectedCount cexParams.keep_percentage cexParams.min_frames
          cexParams.max_frames 1000 := by
  refine ⟨rfl, ?_⟩
  have h1 : framesToUse cexParams = 0 := by
    simp only [framesToUse, cexParams, truncToInt]
    norm_num
  have h2 : specSelectedCount cexParams.keep_percentage cexParams.min_frames
      cexParams.max_frames 1000 = 1 := by
    simp only [specSelectedCount, cexParams]
    norm_num [round_eq]
  rw [h1, h2]
  decide

/-- C1 (amended): for every non-null video_path, output_path and params with
min_frames ≤ max_frames, the frame-selection stage of ps_process_video
computes trunc(1000 × keep_percentage) clamped to [min_frames, max_frames]
(truncation toward zero, not rounding); no further clamp to the number of
analyzed frames is applied, since the analysis stage of ps_process_video is
simulated and produces no scores. -/
theorem frames_to_use_trunc_clamp (vp op : String) (p : PSProcessingParams) (cb : Bool)
    (h : p.min_frames ≤ p.max_frames) :
    (ps_process_video (some vp) (some op) (some p) cb).frames_to_use
      = some (min p.max_frames (max p.min_frames (truncToInt (1000 * p.keep_percentage)))) := by
  show some (framesToUse p) = _
  rw [framesToUse]
  congr 1
  omega

/-- Witness for frames_to_use_trunc_clamp at the default parameters. -/
theorem frames_to_use_trunc_clamp_witness :
    ps_get_default_params.min_frames ≤ ps_get_default_params.max_frames ∧
    (ps_process_video (some ("v")) (some ("o")) (some ps_get_default_params) false).frames_to_use
      = some (min ps_get_default_params.max_frames
          (max ps_get_default_params.min_frames
            (truncToInt (1000 * ps_get_default_params.keep_percentage)))) :=
  ⟨by decide, frames_to_use_trunc_clamp ("v") ("o") ps_get_default_params false (by decide)⟩

/-- C2: for every sample_step ≥ 1 and non-null video_path, the returned
PSAnalysisResult has count = ⌈total_frames / sample_step⌉ minus the number of
decode failures; the simulated code never fails to decode (there is no decode
at all), so the count equals the ceiling exactly. -/
theorem analyze_count_eq_ceil (vp : String) (sample_step : ℕ) (hs : 1 ≤ sample_step)
    (hasCallback : Bool) (sinq : ℚ → ℚ) (noise : ℕ → ℚ) :
    ∃ r, (ps_analyze_video (some vp) sample_step hasCallback sinq noise).result = some r ∧
      (r.count : ℤ) = ⌈(totalFrames : ℚ) / (sample_step : ℚ)⌉ := by
  refine ⟨_, rfl, ?_⟩
  show (((analyzeScores sinq noise sample_step).length : ℤ)) = _
  rw [analyzeScores, List.length_insertionSort, analyzeScoresPre, List.length_map,
    List.length_range]
  exact ceil_helper hs

/-- Witness for analyze_count_eq_ceil at sample_step = 3. -/
theorem analyze_count_eq_ceil_witness :
    (1:ℕ) ≤ 3 ∧
    ∃ r, (ps_analyze_video (some ("v")) 3 false zeroSin zeroNoise).result = some r ∧
      (r.count : ℤ) = ⌈(totalFrames : ℚ) / ((3:ℕ) : ℚ)⌉ :=
  ⟨by decide, analyze_count_eq_ceil ("v") 3 (by decide) false zeroSin zeroNoise⟩

/-- C3 counterexample: with sample_step = 500 and parameter values producing
two analyzed frames of equal quality_score 0.65 (sin taken as the zero
function and both noise draws equal, which the uniform distribution permits),
the list holding the index-500 frame before the index-0 frame is a permissible
output of the std::sort call (it is a comparator-sorted permutation of the
analyzed scores), yet its equal-quality entries are NOT in ascending
frame_index order.  std::sort is unstable, so the claimed tie-break is not
guaranteed by the code. -/
theorem sort_tie_order_unspecified_cex :
    [mkFrameScore zeroSin zeroNoise 500 1, mkFrameScore zeroSin zeroNoise 500 0]
      ∈ analyzeOutputs 500 zeroSin zeroNoise ∧
    ¬ tiesAscending [mkFrameScore zeroSin zeroNoise 500 1,
        mkFrameScore zeroSin zeroNoise 500 0] := by
  constructor
  · refine ⟨?_, ?_⟩
    · show List.Perm _ (analyzeScoresPre zeroSin zeroNoise 500)
      have hpre : analyzeScoresPre zeroSin zeroNoise 500
          = [mkFrameScore zeroSin zeroNoise 500 0, mkFrameScore zeroSin zeroNoise 500 1] := rfl
      rw [hpre]
      exact List.Perm.swap _ _ _
    · simp [List.pairwise_cons, qRel, q650, q651]
  · intro h
    simp only [tiesAscending, List.pairwise_cons] at h
    obtain ⟨h1, -⟩ := h
    have := h1 _ (List.mem_cons_self _ _) (by rw [q650, q651])
    rw [idx1, idx0] at this
    omega

/-- C3 (amended): for every sample_step ≥ 1 and non-null video_path, the
scores array returned by ps_analyze_video is a permutation of the analyzed
frame scores arranged in non-increasing order of quality_score; the relative
order of entries with equal quality_score is unspecified. -/
theorem analyze_scores_sorted_desc (vp : String) (sample_step : ℕ) (hs : 1 ≤ sample_step)
    (hasCallback : Bool) (sinq : ℚ → ℚ) (noise : ℕ → ℚ) :
    ∃ r, (ps_analyze_video (some vp) sample_step hasCallback sinq noise).result = some r ∧
      r.scores ∈ analyzeOutputs sample_step sinq noise :=
  ⟨_, rfl, List.perm_insertionSort qRel _, List.sorted_insertionSort qRel _⟩

/-- Witness for analyze_scores_sorted_desc at sample_step = 500. -/
theorem analyze_scores_sorted_desc_witness :
    (1:ℕ) ≤ 500 ∧
    ∃ r, (ps_analyze_video (some ("v")) 500 false zeroSin zeroNoise).result = some r ∧
      r.scores ∈ analyzeOutputs 500 zeroSin zeroNoise :=
  ⟨by decide, analyze_scores_sorted_desc ("v") 500 (by decide) false zeroSin zeroNoise⟩

/-- C4: with a non-null progress callback, the sequence of progress values
passed to the callback by ps_analyze_video (sample_step ≥ 1) and by
ps_process_video is monotonically non-decreasing, and every value lies in
[0, 100]. -/
theorem progress_monotone_bounded (vp op : String) (p : PSProcessingParams)
    (sample_step : ℕ) (hs : 1 ≤ sample_step) (sinq : ℚ → ℚ) (noise : ℕ → ℚ) :
    ((ps_analyze_video (some vp) sample_step true sinq noise).trace.Pairwise (· ≤ ·) ∧
      ∀ x ∈ (ps_analyze_video (some vp) sample_step true sinq noise).trace,
        (0:ℤ) ≤ x ∧ x ≤ 100) ∧
    ((ps_process_video (some vp) (some op) (some p) true).trace.Pairwise (· ≤ ·) ∧
      ∀ x ∈ (ps_process_video (some vp) (some op) (some p) true).trace,
        (0:ℤ) ≤ x ∧ x ≤ 100) := by
  constructor
  · show ((0 :: (analyzeLoopTrace sample_step ++ [95, 100])).Pairwise (· ≤ ·) ∧ _)
    exact analyzeTrace_ok hs
  · show ((processTrace p.enable_local_align).Pairwise (· ≤ ·) ∧ _)
    exact processTrace_ok p.enable_local_align

/-- Witness for progress_monotone_bounded at sample_step = 3 and the default
parameters. -/
theorem progress_monotone_bounded_witness :
    (1:ℕ) ≤ 3 ∧
    (((ps_analyze_video (some ("v")) 3 true zeroSin zeroNoise).trace.Pairwise (· ≤ ·) ∧
      ∀ x ∈ (ps_analyze_video (some ("v")) 3 true zeroSin zeroNoise).trace,
        (0:ℤ) ≤ x ∧ x ≤ 100) ∧
    ((ps_process_video (some ("v")) (some ("o")) (some ps_get_default_params) true).trace.Pairwise
        (· ≤ ·) ∧
      ∀ x ∈ (ps_process_video (some ("v")) (some ("o")) (some ps_get_default_params) true).trace,
        (0:ℤ) ≤ x ∧ x ≤ 100)) :=
  ⟨by decide, progress_monotone_bounded ("v") ("o") ps_get_default_params 3 (by decide)
    zeroSin zeroNoise⟩

/-- C5: a null video_path, output_path or params makes ps_process_video
return -1 with g_last_error = "Invalid parameters", with no progress callback
invocation; a null video_path makes ps_analyze_video return nullptr with
g_last_error = "Video path cannot be null", with no callback invocation. -/
theorem null_inputs_fail_fast (op : Option String) (pr : Option PSProcessingParams)
    (cb : Bool) (vp : Option String) (sample_step : ℕ) (sinq : ℚ → ℚ) (noise : ℕ → ℚ) :
    ((ps_process_video none op pr cb).ret = -1 ∧
      (ps_process_video none op pr cb).trace = [] ∧
      (ps_process_video none op pr cb).lastError = "Invalid parameters") ∧
    ((ps_process_video vp none pr cb).ret = -1 ∧
      (ps_process_video vp none pr cb).trace = [] ∧
      (ps_process_video vp none pr cb).lastError = "Invalid parameters") ∧
    ((ps_process_video vp op none cb).ret = -1 ∧
      (ps_process_video vp op none cb).trace = [] ∧
      (ps_process_video vp op none cb).lastError = "Invalid parameters") ∧
    ((ps_analyze_video none sample_step cb sinq noise).result = none ∧
      (ps_analyze_video none sample_step cb sinq noise).trace = [] ∧
      (ps_analyze_video none sample_step cb sinq noise).lastError
        = "Video path cannot be null") := by
  refine ⟨?_, ?_, ?_, ⟨rfl, rfl, rfl⟩⟩
  · cases op <;> cases pr <;> exact ⟨rfl, rfl, rfl⟩
  · cases vp <;> cases pr <;> exact ⟨rfl, rfl, rfl⟩
  · cases vp <;> cases op <;> exact ⟨rfl, rfl, rfl⟩

/-- C6 counterexample: no return value of ps_process_video is distinct from
both 0 (success) and -1 (the generic failure code), so no distinct Cancelled
outcome exists; the function takes no cancellation signal at all. -/
theorem no_cancelled_outcome_cex :
    ¬ ∃ r ∈ psProcessReturnValues, r ≠ 0 ∧ r ≠ -1 := by
  rintro ⟨r, ⟨vp, op, pr, cb, hr⟩, h0, h1⟩
  cases vp <;> cases op <;> cases pr <;> cases hr <;> first | exact h0 rfl | exact h1 rfl

/-- C6 (amended): ps_process_video exposes no cancellation mechanism: its
API takes no cancellation token, and every call returns either 0 (success)
or -1 (failure).  There is no third, Cancelled-specific outcome (and the
simulated pipeline writes no output artifact in any case). -/
theorem process_outcomes_binary (vp op : Option String) (pr : Option PSProcessingParams)
    (cb : Bool) :
    (ps_process_video vp op pr cb).ret = 0 ∨ (ps_process_video vp op pr cb).ret = -1 := by
  cases vp <;> cases op <;> cases pr <;> simp [ps_process_video]

/-- C7: every PSFrameScore produced by ps_analyze_video has frame_index ≥ 0
and quality_score in [0, 1] (the code clamps quality to [0.05, 0.99] and sets
frame_index = i * sample_step ≥ 0). -/
theorem frame_score_bounds (vp : String) (sample_step : ℕ) (hasCallback : Bool)
    (sinq : ℚ → ℚ) (noise : ℕ → ℚ) :
    ∀ r, (ps_analyze_video (some vp) sample_step hasCallback sinq noise).result = some r →
      ∀ sc ∈ r.scores, 0 ≤ sc.frame_index ∧ 0 ≤ sc.quality_score ∧ sc.quality_score ≤ 1 := by
  intro r hr sc hsc
  have hr' : r.scores = analyzeScores sinq noise sample_step := by
    cases hr
    rfl
  rw [hr', analyzeScores, List.mem_insertionSort, analyzeScoresPre, List.mem_map] at hsc
  obtain ⟨i, -, rfl⟩ := hsc
  refine ⟨Int.natCast_nonneg _, ?_, ?_⟩
  · show (0:ℚ) ≤ max (5/100) _
    exact le_trans (by norm_num) (le_max_left _ _)
  · show max (5/100) _ ≤ (1:ℚ)
    exact max_le (by norm_num) (le_trans (min_le_left _ _) (by norm_num))

/-- Witness for frame_score_bounds: the result at sample_step 500 contains the
loop-index-0 score, which satisfies the bounds. -/
theorem frame_score_bounds_witness :
    (ps_analyze_video (some ("v")) 500 false zeroSin zeroNoise).result
      = some { scores := analyzeScores zeroSin zeroNoise 500
               count := (analyzeScores zeroSin zeroNoise 500).length
               total_frames := totalFrames } ∧
    mkFrameScore zeroSin zeroNoise 500 0 ∈ analyzeScores zeroSin zeroNoise 500 ∧
    (0 ≤ (mkFrameScore zeroSin zeroNoise 500 0).frame_index ∧
      0 ≤ (mkFrameScore zeroSin zeroNoise 500 0).quality_score ∧
      (mkFrameScore zeroSin zeroNoise 500 0).quality_score ≤ 1) :=
  ⟨rfl, (List.mem_insertionSort qRel).mpr (List.mem_cons_self _ _),
    frame_score_bounds ("v") 500 false zeroSin zeroNoise _ rfl _
      ((List.mem_insertionSort qRel).mpr (List.mem_cons_self _ _))⟩

/-- C8: for every non-null video_path, output_path and params — with NO
constraint whatsoever on the params fields — ps_process_video returns 0 and
clears the error state: the simulated pipeline validates nothing and can
return no fatal error kind for such inputs. -/
theorem process_always_succeeds (vp op : String) (p : PSProcessingParams) (cb : Bool) :
    (ps_process_video (some vp) (some op) (some p) cb).ret = 0 ∧
    (ps_process_video (some vp) (some op) (some p) cb).lastError = "" :=
  ⟨rfl, rfl⟩

/-- C9: for every non-null video_path and sample_step ≥ 1, the returned
total_frames is the constant 1000, and the whole outcome is independent of
the video_path string: the embedding, like the code, never inspects the path
beyond the null check (the file is never opened). -/
theorem analysis_path_independent (vp vp' : String) (sample_step : ℕ)
    (hs : 1 ≤ sample_step) (cb : Bool) (sinq : ℚ → ℚ) (noise : ℕ → ℚ) :
    ∃ r, (ps_analyze_video (some vp) sample_step cb sinq noise).result = some r ∧
      r.total_frames = 1000 ∧
      ps_analyze_video (some vp) sample_step cb sinq noise
        = ps_analyze_video (some vp') sample_step cb sinq noise :=
  ⟨_, rfl, rfl, rfl⟩

/-- Witness for analysis_path_independent at two distinct paths. -/
theorem analysis_path_independent_witness :
    (1:ℕ) ≤ 3 ∧
    ∃ r, (ps_analyze_video (some ("a")) 3 false zeroSin zeroNoise).result = some r ∧
      r.total_frames = 1000 ∧
      ps_analyze_video (some ("a")) 3 false zeroSin zeroNoise
        = ps_analyze_video (some ("b")) 3 false zeroSin zeroNoise :=
  ⟨by decide, analysis_path_independent ("a") ("b") 3 (by decide) false zeroSin zeroNoise⟩

/-- C10: the analyzed-frame count expression (total_frames + sample_step - 1)
/ sample_step divides by zero at sample_step = 0 (modelled as none); under
the precondition sample_step ≥ 1 the division is defined and agrees with the
total ℕ model, so the function is total there. -/
theorem analyzed_count_division_guarded :
    analyzedCountChecked 1000 0 = none ∧
    ∀ s : ℤ, 1 ≤ s → ∃ n : ℕ, analyzedCountChecked 1000 s = some (n : ℤ) ∧
      n = analyzedCount s.toNat := by
  constructor
  · rfl
  · intro s hs
    obtain ⟨n, rfl⟩ : ∃ n : ℕ, s = (n : ℤ) := ⟨s.toNat, (Int.toNat_of_nonneg (by omega)).symm⟩
    have hn : 1 ≤ n := by exact_mod_cast hs
    refine ⟨analyzedCount n, ?_, by simp⟩
    rw [analyzedCountChecked, if_neg (by exact_mod_cast Nat.one_le_iff_ne_zero.mp hn)]
    congr 1
    have h1 : (1000 + (n:ℤ) - 1) = ((1000 + n - 1 : ℕ) : ℤ) := by omega
    rw [h1]
    show Int.tdiv _ _ = _
    rw [Int.tdiv_eq_ediv (by positivity) (by positivity)]
    simp only [analyzedCount, totalFrames]
    norm_cast

/-- Witness for analyzed_count_division_guarded at sample_step = 3. -/
theorem analyzed_count_division_guarded_witness :
    (1:ℤ) ≤ 3 ∧
    ∃ n : ℕ, analyzedCountChecked 1000 3 = some (n : ℤ) ∧ n = analyzedCount (3:ℤ).toNat :=
  ⟨by decide, analyzed_count_division_guarded.2 3 (by decide)⟩
